import Mathlib

/-
Verification development for the webxterm protocol adapter layer.

Shallow embedding of the Python source under src/app: the per-session
output relay (protocols/base.py), the four transport adapters
(protocols/ssh.py, telnet.py, serial.py, local.py), the session registry
(services/connection_manager.py) and the connection factory
(protocols/factory.py).  Byte strings are modelled as List Nat (one Nat
per byte, < 256), decoded text as List Nat of Unicode code points,
and the stateful adapter objects as explicit state records with pure
transition functions returning the new state together with the list of
side effects the call performs.
-/

set_option autoImplicit false

namespace Webxterm

/-! ## Output relay (src/app/protocols/base.py)

`ConnectionProtocol.__init__` creates `self._output_queue = asyncio.Queue()`.
`asyncio.Queue()` with no argument has `maxsize = 0`; in asyncio a queue
with `maxsize <= 0` is never full and `put` never blocks.  -/

/-- The maxsize the constructor passes to `asyncio.Queue()` in
`ConnectionProtocol.__init__` (base.py line 24): no argument, hence 0. -/
def relayMaxsize : Nat := 0

/-- asyncio semantics: `Queue.put` blocks exactly when the queue is full,
and a queue is full exactly when `0 < maxsize` and `qsize >= maxsize`. -/
def putWouldBlock (maxsize : Nat) (queue : List String) : Bool :=
  decide (0 < maxsize) && decide (maxsize ≤ queue.length)

/-- Observable state of one session's relay: the `closed` flag of the
`ConnectionProtocol`, the contents of `_output_queue`, and the chunks the
`read_output` generator has yielded so far. -/
structure RelayState where
  closed : Bool
  queue : List String
  yielded : List String
  deriving Repr, DecidableEq

/-- A fresh session's relay: `closed = False`, empty queue. -/
def relayInit : RelayState :=
  { closed := false, queue := [], yielded := [] }

/-- `ConnectionProtocol._queue_output` (base.py lines 87-90):
`if not self.closed: await self._output_queue.put(data)`. -/
def queue_output (s : RelayState) (data : String) : RelayState :=
  if s.closed then s else { s with queue := s.queue ++ [data] }

/-- Repeatedly hand chunks to `_queue_output` on an open session. -/
def iterEnqueue : Nat → RelayState → RelayState
  | 0, s => s
  | n + 1, s => iterEnqueue n (queue_output s "chunk")

/-- Events driving the relay: the producer calling `_queue_output`,
the session being closed, and one iteration of the `read_output`
generator loop (base.py lines 68-85: the loop runs `while not
self.closed`; a timeout just re-enters the loop). -/
inductive RelayEvent where
  | enq (data : String)
  | close
  | deq
  deriving Repr, DecidableEq

/-- One step of the relay system.  `enq` is `_queue_output`; `close` sets
the closed flag; `deq` is one `read_output` iteration: if the closed flag
is set the generator's `while` guard fails and nothing is yielded,
otherwise the head of the queue (if any) is yielded. -/
def relayStep (s : RelayState) : RelayEvent → RelayState
  | .enq data => queue_output s data
  | .close => { s with closed := true }
  | .deq =>
    if s.closed then s
    else
      match s.queue with
      | [] => s
      | c :: rest => { s with queue := rest, yielded := s.yielded ++ [c] }

/-- Run the relay over a sequence of events. -/
def relayRun (s : RelayState) (evs : List RelayEvent) : RelayState :=
  evs.foldl relayStep s

lemma queue_output_closed (s : RelayState) (data : String) (h : s.closed = true) :
    queue_output s data = s := by
  simp [queue_output, h]

lemma relayStep_closed (s : RelayState) (e : RelayEvent) (h : s.closed = true) :
    relayStep s e = s := by
  cases e with
  | enq data => simpa [relayStep] using queue_output_closed s data h
  | close => simp [relayStep, ← h]
  | deq => simp [relayStep, h]

lemma relayRun_closed (s : RelayState) (evs : List RelayEvent) (h : s.closed = true) :
    relayRun s evs = s := by
  induction evs with
  | nil => rfl
  | cons e rest ih => simp [relayRun, List.foldl_cons, relayStep_closed s e h, relayRun] at ih ⊢; exact ih

lemma iterEnqueue_open (n : Nat) (s : RelayState) (h : s.closed = false) :
    (iterEnqueue n s).closed = false ∧ (iterEnqueue n s).queue.length = s.queue.length + n := by
  induction n generalizing s with
  | zero => simp [iterEnqueue, h]
  | succ m ih =>
    have hq : (queue_output s "chunk").closed = false ∧
        (queue_output s "chunk").queue.length = s.queue.length + 1 := by
      simp [queue_output, h]
    obtain ⟨h1, h2⟩ := ih (queue_output s "chunk") hq.1
    refine ⟨h1, ?_⟩
    rw [iterEnqueue, h2, hq.2]
    omega

/-- The boundedness the spec claims of the relay: some fixed constant that
the number of held chunks never exceeds, however many chunks the producer
enqueues into an open session. -/
def relayBoundedClaim : Prop :=
  ∃ C : Nat, ∀ n : Nat, (iterEnqueue n relayInit).queue.length ≤ C

/-- C1 counterexample: the relay is NOT bounded.  `ConnectionProtocol.__init__`
creates `asyncio.Queue()` with the default `maxsize = 0`, which asyncio treats
as unbounded, so there is no constant that the queue length respects: after n
calls to `_queue_output` on an open session the queue holds n chunks. -/
theorem relay_bounded_claim_false : ¬ relayBoundedClaim := by
  rintro ⟨C, hC⟩
  have hlen := (iterEnqueue_open (C + 1) relayInit rfl).2
  have hle := hC (C + 1)
  rw [hlen] at hle
  simp only [relayInit, List.length_nil, Nat.zero_add] at hle
  omega

/-- C1 amended: the relay is an `asyncio.Queue()` with the default
`maxsize = 0`, i.e. unbounded; `put` never blocks (no backpressure), every
enqueue on an open session appends the chunk, and the queue length grows
without bound as chunks are enqueued. -/
theorem relay_unbounded_no_backpressure :
    relayMaxsize = 0 ∧
    (∀ q : List String, putWouldBlock relayMaxsize q = false) ∧
    (∀ (s : RelayState) (c : String), s.closed = false →
      (queue_output s c).queue = s.queue ++ [c]) ∧
    (∀ n : Nat, (iterEnqueue n relayInit).queue.length = n) := by
  refine ⟨rfl, ?_, ?_, ?_⟩
  · intro q
    simp [putWouldBlock, relayMaxsize]
  · intro s c h
    simp [queue_output, h]
  · intro n
    have := (iterEnqueue_open n relayInit rfl).2
    simpa [relayInit] using this

/-- Witness for C1 amended at concrete inputs: a put onto a queue already
holding 9999 chunks does not block, and an enqueue on the fresh open relay
appends the chunk. -/
theorem relay_unbounded_no_backpressure_witness :
    putWouldBlock relayMaxsize (List.replicate 9999 "x") = false ∧
    (queue_output relayInit "a").queue = ["a"] :=
  ⟨relay_unbounded_no_backpressure.2.1 _,
   relay_unbounded_no_backpressure.2.2.1 relayInit "a" rfl⟩

/-- C10: once the closed flag is set, `_queue_output` silently discards every
chunk (nothing is enqueued), one `read_output` iteration yields nothing (the
generator's while guard has failed, so it terminates), any sequence of further
events leaves the relay state unchanged, and therefore the consumer stream
never yields a chunk produced after close: the state - in particular the
yielded list - after any trace that contains a close event equals the state
right after that close event. -/
theorem relay_inert_after_close (s : RelayState) (h : s.closed = true) :
    (∀ data, queue_output s data = s) ∧
    (∀ e, relayStep s e = s) ∧
    (∀ evs, relayRun s evs = s) ∧
    (∀ (s0 : RelayState) (pre post : List RelayEvent),
      relayRun s0 (pre ++ RelayEvent.close :: post) =
        relayRun s0 (pre ++ [RelayEvent.close])) := by
  refine ⟨fun data => queue_output_closed s data h,
          fun e => relayStep_closed s e h,
          fun evs => relayRun_closed s evs h, ?_⟩
  intro s0 pre post
  have h1 : relayRun s0 (pre ++ RelayEvent.close :: post) =
      relayRun (relayRun s0 (pre ++ [RelayEvent.close])) post := by
    simp [relayRun, List.foldl_append]
  have h2 : (relayRun s0 (pre ++ [RelayEvent.close])).closed = true := by
    simp [relayRun, List.foldl_append, relayStep]
  rw [h1, relayRun_closed _ post h2]

/-- Witness for C10 at a concrete closed state: a late chunk is discarded and
a full post-close trace (enqueue, read iteration) changes nothing. -/
theorem relay_inert_after_close_witness :
    queue_output { closed := true, queue := ["a"], yielded := ["b"] } "late" =
      { closed := true, queue := ["a"], yielded := ["b"] } ∧
    relayRun { closed := true, queue := ["a"], yielded := ["b"] }
        [RelayEvent.enq "late", RelayEvent.deq] =
      { closed := true, queue := ["a"], yielded := ["b"] } :=
  ⟨(relay_inert_after_close _ rfl).1 "late",
   (relay_inert_after_close _ rfl).2.2.1 [RelayEvent.enq "late", RelayEvent.deq]⟩

/-! ## Session registry (src/app/services/connection_manager.py)

`ConnectionManager` keeps `self.connections`, a dict mapping a connection id
to an entry `{connection, created_at, last_activity}`, plus counters.
Sessions are abstracted by a numeric identity; timestamps by a Nat clock
value passed to the operations that read it. -/

/-- One value of the `self.connections` dict. -/
structure SessEntry where
  session : Nat
  createdAt : Nat
  lastActivity : Nat
  deriving Repr, DecidableEq

/-- State of a `ConnectionManager`. -/
structure Registry where
  connections : List (String × SessEntry)
  totalConnections : Nat
  activeConnections : Int
  deriving Repr, DecidableEq

/-- A fresh `ConnectionManager`. -/
def registryInit : Registry :=
  { connections := [], totalConnections := 0, activeConnections := 0 }

/-- Side effects a registry operation performs. -/
inductive RegEffect where
  | closedSession (session : Nat)
  | warnedMissing (connectionId : String)
  deriving Repr, DecidableEq

/-- Dict lookup on the connections table (first matching key; keys are
unique because assignment replaces the existing entry). -/
def lookupConn : List (String × SessEntry) → String → Option SessEntry
  | [], _ => none
  | (k, v) :: rest, x => if k = x then some v else lookupConn rest x

/-- Dict deletion of a key. -/
def eraseConn (l : List (String × SessEntry)) (x : String) :
    List (String × SessEntry) :=
  l.filter (fun p => p.1 ≠ x)

/-- `ConnectionManager.add_connection`: stores the entry under the id
(dict assignment, replacing any existing entry) and bumps both counters. -/
def add_connection (reg : Registry) (cid : String) (session : Nat) (now : Nat) :
    Registry :=
  { reg with
    connections :=
      (cid, { session := session, createdAt := now, lastActivity := now })
        :: eraseConn reg.connections cid,
    totalConnections := reg.totalConnections + 1,
    activeConnections := reg.activeConnections + 1 }

/-- `ConnectionManager.get_connection`: if the id is present, refresh its
`last_activity` and return the stored connection, else return None. -/
def get_connection (reg : Registry) (cid : String) (now : Nat) :
    Registry × Option Nat :=
  match lookupConn reg.connections cid with
  | some entry =>
    ({ reg with
       connections :=
         (cid, { entry with lastActivity := now }) :: eraseConn reg.connections cid },
     some entry.session)
  | none => (reg, none)

/-- `ConnectionManager.remove_connection`: if the id is present, call
`close()` on the stored connection, delete the entry and decrement the
active counter; otherwise only log a warning (no exception, no close). -/
def remove_connection (reg : Registry) (cid : String) :
    Registry × List RegEffect :=
  match lookupConn reg.connections cid with
  | some entry =>
    ({ reg with
       connections := eraseConn reg.connections cid,
       activeConnections := reg.activeConnections - 1 },
     [RegEffect.closedSession entry.session])
  | none => (reg, [RegEffect.warnedMissing cid])

lemma remove_connection_absent (reg : Registry) (x : String)
    (h : lookupConn reg.connections x = none) :
    remove_connection reg x = (reg, [RegEffect.warnedMissing x]) := by
  simp [remove_connection, h]

lemma lookupConn_eraseConn (l : List (String × SessEntry)) (x : String) :
    lookupConn (eraseConn l x) x = none := by
  induction l with
  | nil => rfl
  | cons p rest ih =>
    by_cases h : p.1 = x
    · simpa [eraseConn, h] using ih
    · simpa [eraseConn, lookupConn, h] using ih

/-- C5: for the session registry, after `add_connection x s` a
`get_connection x` returns s; removing x closes s exactly once (the single
close effect is emitted before the entry is deleted, and deletion does
happen: a subsequent get returns None); and a second `remove_connection x`
neither fails nor closes again - it leaves the registry unchanged and only
emits a warning. -/
theorem registry_add_get_remove_close_once
    (reg : Registry) (x : String) (s t1 t2 t3 : Nat) :
    (get_connection (add_connection reg x s t1) x t2).2 = some s ∧
    (remove_connection (add_connection reg x s t1) x).2
      = [RegEffect.closedSession s] ∧
    (get_connection (remove_connection (add_connection reg x s t1) x).1 x t3).2
      = none ∧
    (remove_connection (remove_connection (add_connection reg x s t1) x).1 x).1
      = (remove_connection (add_connection reg x s t1) x).1 ∧
    (remove_connection (remove_connection (add_connection reg x s t1) x).1 x).2
      = [RegEffect.warnedMissing x] := by
  have hadd : lookupConn (add_connection reg x s t1).connections x
      = some { session := s, createdAt := t1, lastActivity := t1 } := by
    simp [add_connection, lookupConn]
  have hrem : (remove_connection (add_connection reg x s t1) x).1.connections
      = eraseConn (add_connection reg x s t1).connections x := by
    simp [remove_connection, hadd]
  have hnone : lookupConn
      (remove_connection (add_connection reg x s t1) x).1.connections x = none := by
    rw [hrem]; exact lookupConn_eraseConn _ x
  refine ⟨?_, ?_, ?_, ?_, ?_⟩
  · simp [get_connection, hadd]
  · simp [remove_connection, hadd]
  · simp [get_connection, hnone]
  · rw [remove_connection_absent _ x hnone]
  · rw [remove_connection_absent _ x hnone]

/-! ## Local PTY child process (src/app/protocols/local.py, factory.py)

`LocalProtocol._setup_child_process` runs in the forked child: pty setup
steps (close master, setsid, set controlling terminal, dup2 stdio, build
env) which may raise, then checks `/usr/bin/login` for existence and
execute permission; it execs it if usable and otherwise calls
`os._exit(1)`.  Any exception in the whole block also ends in
`os._exit(1)`.  `ConnectionFactory.create_connection` additionally refuses
to construct a LocalProtocol at all when `/usr/bin/login` is missing. -/

/-- Environment facts the child-process code branches on. -/
structure ChildEnv where
  loginExists : Bool
  loginExecutable : Bool
  setupSucceeds : Bool
  deriving Repr, DecidableEq

/-- What the forked child ends up doing. -/
inductive ChildOutcome where
  | execProgram (path : String)
  | exitFailure (code : Nat)
  deriving Repr, DecidableEq

/-- `LocalProtocol._setup_child_process`: if any pty setup step raises the
except handler calls `os._exit(1)`; otherwise the child execs
`/usr/bin/login` exactly when it exists and is executable, and calls
`os._exit(1)` otherwise. -/
def setup_child_process (env : ChildEnv) : ChildOutcome :=
  if ¬ env.setupSucceeds then .exitFailure 1
  else if env.loginExists && env.loginExecutable then .execProgram "/usr/bin/login"
  else .exitFailure 1

/-- `ConnectionFactory.create_connection` for the LOCAL type: raises
ValueError before creating the protocol when `/usr/bin/login` is absent. -/
def factory_local_gate (loginExists : Bool) : Except String Unit :=
  if ¬ loginExists then .error "Local terminal login is disabled"
  else .ok ()

/-- C7: whenever the system login program is absent or not executable the
spawned child exits with failure status 1 and execs nothing; in every
environment the child either execs exactly `/usr/bin/login` or exits with
failure, so no input or environment makes it fall back to a shell; and the
factory refuses to even create a local session when the login binary is
absent. -/
theorem local_child_no_shell_fallback (env : ChildEnv) :
    ((env.loginExists && env.loginExecutable) = false →
      setup_child_process env = .exitFailure 1) ∧
    (∀ p : String, setup_child_process env = .execProgram p → p = "/usr/bin/login") ∧
    (env.loginExists = false → factory_local_gate env.loginExists
      = .error "Local terminal login is disabled") := by
  refine ⟨?_, ?_, ?_⟩
  · intro h
    by_cases hs : env.setupSucceeds <;> simp [setup_child_process, h, hs]
  · intro p hp
    by_cases hs : env.setupSucceeds
    · by_cases hl : (env.loginExists && env.loginExecutable) = true
      · simp [setup_child_process, hs, hl] at hp
        exact hp.symm
      · simp [setup_child_process, hs, hl] at hp
    · simp [setup_child_process, hs] at hp
  · intro h
    simp [factory_local_gate, h]

/-- Witness for C7: with `/usr/bin/login` present but not executable the
child exits with status 1, and with it absent the factory refuses. -/
theorem local_child_no_shell_fallback_witness :
    setup_child_process
        { loginExists := true, loginExecutable := false, setupSucceeds := true }
      = .exitFailure 1 ∧
    factory_local_gate false = .error "Local terminal login is disabled" :=
  ⟨(local_child_no_shell_fallback
      { loginExists := true, loginExecutable := false, setupSucceeds := true }).1 rfl,
   (local_child_no_shell_fallback
      { loginExists := false, loginExecutable := true, setupSucceeds := true }).2.2 rfl⟩

/-! ## SSH outbound chunking (src/app/protocols/ssh.py)

`SSHProtocol._send_data_chunked` loops `while sent_size < total_size`,
sending `data_bytes[sent:sent+min(4096, remaining)]` through
`channel.send` and sleeping 1ms between chunks (only when more remain).
`SSHProtocol.send_data` encodes the string to UTF-8 and uses the chunked
loop when the encoded payload exceeds 4096 bytes, else a single
`channel.send`.  We model the sequence of channel writes and scheduler
yields the call performs; the payload is the encoded byte list. -/

/-- One observable action of the SSH send path. -/
inductive SSHWriteEvent where
  | wrote (chunk : List Nat)
  | yielded
  deriving Repr, DecidableEq

/-- The loop body of `_send_data_chunked`, with fuel bounding iterations
(the Python loop strictly increases `sent_size`, so `total_size` fuel
always suffices). -/
def chunkedSendLoop : Nat → List Nat → List SSHWriteEvent
  | 0, _ => []
  | _ + 1, [] => []
  | fuel + 1, b :: bs =>
    SSHWriteEvent.wrote ((b :: bs).take 4096) ::
      (if (b :: bs).drop 4096 = [] then []
       else SSHWriteEvent.yielded :: chunkedSendLoop fuel ((b :: bs).drop 4096))

/-- `SSHProtocol._send_data_chunked`. -/
def send_data_chunked (l : List Nat) : List SSHWriteEvent :=
  chunkedSendLoop l.length l

/-- The channel writes and yields performed by `SSHProtocol.send_data` for
an encoded payload: chunked when larger than 4096 bytes, one direct write
otherwise. -/
def sshSendEvents (payload : List Nat) : List SSHWriteEvent :=
  if 4096 < payload.length then send_data_chunked payload
  else [SSHWriteEvent.wrote payload]

/-- Concatenation of the bytes written to the channel by a list of events. -/
def writtenBytes (evs : List SSHWriteEvent) : List Nat :=
  (evs.filterMap fun e =>
    match e with
    | .wrote c => some c
    | .yielded => none).flatten

lemma writtenBytes_cons_wrote (c : List Nat) (evs : List SSHWriteEvent) :
    writtenBytes (SSHWriteEvent.wrote c :: evs) = c ++ writtenBytes evs := by
  simp [writtenBytes]

lemma writtenBytes_cons_yielded (evs : List SSHWriteEvent) :
    writtenBytes (SSHWriteEvent.yielded :: evs) = writtenBytes evs := by
  simp [writtenBytes]

lemma chunkedSendLoop_written (fuel : Nat) :
    ∀ l : List Nat, l.length ≤ fuel →
      writtenBytes (chunkedSendLoop fuel l) = l := by
  induction fuel with
  | zero =>
    intro l h
    have : l = [] := List.eq_nil_of_length_eq_zero (Nat.le_zero.mp h)
    subst this
    rfl
  | succ m ih =>
    intro l h
    match l with
    | [] => rfl
    | b :: bs =>
      rw [chunkedSendLoop]
      by_cases hd : (b :: bs).drop 4096 = []
      · rw [if_pos hd, writtenBytes_cons_wrote]
        have htake : (b :: bs).take 4096 ++ (b :: bs).drop 4096 = b :: bs :=
          List.take_append_drop _ _
        rw [hd, List.append_nil] at htake
        simp [writtenBytes, htake]
      · rw [if_neg hd, writtenBytes_cons_wrote, writtenBytes_cons_yielded]
        have hlen : ((b :: bs).drop 4096).length ≤ m := by
          rw [List.length_drop]
          simp only [List.length_cons] at h ⊢
          omega
        rw [ih _ hlen]
        exact List.take_append_drop _ _

lemma chunkedSendLoop_sizes (fuel : Nat) :
    ∀ (l : List Nat) (c : List Nat),
      SSHWriteEvent.wrote c ∈ chunkedSendLoop fuel l → c.length ≤ 4096 := by
  induction fuel with
  | zero => intro l c h; simp [chunkedSendLoop] at h
  | succ m ih =>
    intro l c h
    match l with
    | [] => simp [chunkedSendLoop] at h
    | b :: bs =>
      rw [chunkedSendLoop] at h
      by_cases hd : (b :: bs).drop 4096 = []
      · rw [if_pos hd] at h
        rcases List.mem_cons.mp h with heq | hmem
        · have h1 : c = (b :: bs).take 4096 := by
            injection heq with h1
          rw [h1]
          simp
        · simp at hmem
      · rw [if_neg hd] at h
        rcases List.mem_cons.mp h with heq | hmem
        · have h1 : c = (b :: bs).take 4096 := by
            injection heq with h1
          rw [h1]
          simp
        · rcases List.mem_cons.mp hmem with heq | hmem2
          · exact absurd heq (by simp)
          · exact ih _ _ hmem2

/-- C9: the SSH send path delivers exactly the payload.  For any encoded
payload, the concatenation of the chunks written to the channel equals the
payload byte for byte and every written chunk is at most 4096 bytes; a
payload of at most 4096 bytes is written in one single call; and the
chunked path on its own also delivers exactly the payload, so both paths
hand the channel the same bytes. -/
theorem ssh_send_chunked_exact (payload : List Nat) :
    writtenBytes (sshSendEvents payload) = payload ∧
    (∀ c : List Nat, SSHWriteEvent.wrote c ∈ sshSendEvents payload →
      c.length ≤ 4096) ∧
    (payload.length ≤ 4096 →
      sshSendEvents payload = [SSHWriteEvent.wrote payload]) ∧
    writtenBytes (send_data_chunked payload) = payload := by
  refine ⟨?_, ?_, ?_, ?_⟩
  · by_cases h : 4096 < payload.length
    · simp only [sshSendEvents, if_pos h]
      exact chunkedSendLoop_written payload.length payload le_rfl
    · simp [sshSendEvents, if_neg h, writtenBytes]
  · intro c hc
    by_cases h : 4096 < payload.length
    · rw [sshSendEvents, if_pos h] at hc
      exact chunkedSendLoop_sizes payload.length payload c hc
    · rw [sshSendEvents, if_neg h] at hc
      simp only [List.mem_singleton] at hc
      obtain rfl : c = payload := by
        cases hc with
        | refl => rfl
      omega
  · intro h
    have : ¬ 4096 < payload.length := by omega
    simp [sshSendEvents, this]
  · exact chunkedSendLoop_written payload.length payload le_rfl

/-- Witness for C9: a 5000-byte payload is delivered exactly through the
chunked path, and a 2-byte payload goes out in one single write. -/
theorem ssh_send_chunked_exact_witness :
    writtenBytes (sshSendEvents (List.replicate 5000 7)) = List.replicate 5000 7 ∧
    sshSendEvents [1, 2] = [SSHWriteEvent.wrote [1, 2]] :=
  ⟨(ssh_send_chunked_exact (List.replicate 5000 7)).1,
   (ssh_send_chunked_exact [1, 2]).2.2.1 (by decide)⟩

/-! ## Encoding auto-detection (telnet.py lines 64-149, ssh.py lines 138-167)

`_is_utf8_bytes` tries `data.decode('utf-8', errors='strict')`; Python's
strict UTF-8 decoder accepts exactly the RFC 3629 encodings (no overlong
forms, no surrogates, nothing above U+10FFFF), which `utf8DecodeList`
implements byte for byte.  `decode('gbk', errors='replace')` and
`decode('latin-1', errors='replace')` are external codecs that never raise
in replace mode; the GBK one is modelled as an arbitrary total function
(its table is a collaborator), which also makes the `except
UnicodeDecodeError` fallback to latin-1 dead code.  -/

/-- A UTF-8 continuation byte: 0x80-0xBF. -/
def isContByte (b : Nat) : Bool := decide (0x80 ≤ b) && decide (b ≤ 0xBF)

/-- Allowed second byte of a three-byte sequence (excludes overlong forms
for lead 0xE0 and surrogates for lead 0xED). -/
def utf8ThreeLead2Ok (b b2 : Nat) : Bool :=
  if b = 0xE0 then decide (0xA0 ≤ b2) && decide (b2 ≤ 0xBF)
  else if b = 0xED then decide (0x80 ≤ b2) && decide (b2 ≤ 0x9F)
  else isContByte b2

/-- Allowed second byte of a four-byte sequence (excludes overlong forms
for lead 0xF0 and code points above U+10FFFF for lead 0xF4). -/
def utf8FourLead2Ok (b b2 : Nat) : Bool :=
  if b = 0xF0 then decide (0x90 ≤ b2) && decide (b2 ≤ 0xBF)
  else if b = 0xF4 then decide (0x80 ≤ b2) && decide (b2 ≤ 0x8F)
  else isContByte b2

/-- Decode one UTF-8 encoded code point from the front of a byte list,
returning it with the remaining bytes, or `none` on malformed input. -/
def utf8Step : List Nat → Option (Nat × List Nat)
  | [] => none
  | b :: bs =>
    if b < 0x80 then some (b, bs)
    else if 0xC2 ≤ b ∧ b ≤ 0xDF then
      match bs with
      | b2 :: bs2 =>
        if isContByte b2 then some ((b - 0xC0) * 64 + (b2 - 0x80), bs2)
        else none
      | [] => none
    else if 0xE0 ≤ b ∧ b ≤ 0xEF then
      match bs with
      | b2 :: b3 :: bs3 =>
        if utf8ThreeLead2Ok b b2 && isContByte b3 then
          some ((b - 0xE0) * 4096 + (b2 - 0x80) * 64 + (b3 - 0x80), bs3)
        else none
      | _ => none
    else if 0xF0 ≤ b ∧ b ≤ 0xF4 then
      match bs with
      | b2 :: b3 :: b4 :: bs4 =>
        if utf8FourLead2Ok b b2 && isContByte b3 && isContByte b4 then
          some ((b - 0xF0) * 262144 + (b2 - 0x80) * 4096
                  + (b3 - 0x80) * 64 + (b4 - 0x80), bs4)
        else none
      | _ => none
    else none

/-- Fuelled decoding loop; each step consumes at least one byte, so
`l.length` fuel always suffices. -/
def utf8DecodeLoop : Nat → List Nat → Option (List Nat)
  | _, [] => some []
  | 0, _ :: _ => none
  | fuel + 1, b :: bs =>
    match utf8Step (b :: bs) with
    | some (cp, rest) => (utf8DecodeLoop fuel rest).map (fun r => cp :: r)
    | none => none

/-- Strict UTF-8 decoding of a byte list to code points; `none` is the
`UnicodeDecodeError` of Python's `decode('utf-8', errors='strict')`. -/
def utf8DecodeList (l : List Nat) : Option (List Nat) :=
  utf8DecodeLoop l.length l

/-- `TelnetProtocol._is_utf8_bytes` / `SSHProtocol._is_utf8_bytes`. -/
def utf8Valid (l : List Nat) : Bool := (utf8DecodeList l).isSome

/-- The decoding of a valid UTF-8 byte list. -/
def utf8Dec (l : List Nat) : List Nat := (utf8DecodeList l).getD []

/-- Did the modelled Python call complete without an exception. -/
def exceptOk {ε α : Type} : Except ε α → Bool
  | .ok _ => true
  | .error _ => false

/-- `TelnetProtocol._decode_bytes_with_auto_detection` (telnet.py 72-88):
empty input returns ""; valid UTF-8 is strictly decoded; everything else
goes through `decode('gbk', errors='replace')` (total, so the latin-1
except-branch is unreachable).  `gbkT` models the external GBK codec in
replace mode.  The `.error` branch is Python's strict decode raising;
it is guarded by the validity check. -/
def decode_bytes_with_auto_detection (gbkT : List Nat → List Nat)
    (data : List Nat) : Except Unit (List Nat) :=
  if data = [] then .ok []
  else if utf8Valid data then
    match utf8DecodeList data with
    | some s => .ok s
    | none => .error ()
  else .ok (gbkT data)

/-- `SSHProtocol._convert_server_output` (ssh.py 146-167): identical
byte-level structure (empty input, UTF-8 detection, GBK replace fallback;
the utf-8-replace except-branches are unreachable). -/
def ssh_convert_server_output (gbkT : List Nat → List Nat)
    (data : List Nat) : Except Unit (List Nat) :=
  if data = [] then .ok []
  else if utf8Valid data then
    match utf8DecodeList data with
    | some s => .ok s
    | none => .error ()
  else .ok (gbkT data)

/-- `TelnetProtocol._convert_server_output` (telnet.py 105-149), the
string variant: code points already decoded by telnetlib3.  A U+FFFD
anywhere short-circuits through `_recover_gbk_from_corrupted_string`,
which returns the data unchanged in both of its branches; pure ASCII is
returned unchanged; otherwise, when every code point fits in latin-1 the
string is re-encoded and re-detected (UTF-8 strict, else GBK replace);
anything else is returned unchanged. -/
def telnet_convert_server_output (gbkT : List Nat → List Nat)
    (data : List Nat) : List Nat :=
  if data = [] then data
  else if 0xFFFD ∈ data then data
  else if ∀ c ∈ data, c < 0x80 then data
  else if ∀ c ∈ data, c < 0x100 then
    if utf8Valid data then utf8Dec data else gbkT data
  else data

lemma utf8DecodeLoop_ascii :
    ∀ (l : List Nat) (fuel : Nat), l.length ≤ fuel → (∀ b ∈ l, b < 0x80) →
      utf8DecodeLoop fuel l = some l := by
  intro l
  induction l with
  | nil => intro fuel _ _; cases fuel <;> rfl
  | cons b bs ih =>
    intro fuel hlen h
    match fuel with
    | 0 => simp at hlen
    | m + 1 =>
      have hb : b < 0x80 := h b (List.mem_cons_self b bs)
      have hbs : ∀ x ∈ bs, x < 0x80 := fun x hx => h x (List.mem_cons_of_mem b hx)
      have hstep : utf8Step (b :: bs) = some (b, bs) := by
        rw [utf8Step.eq_def]
        simp [hb]
      have hm : bs.length ≤ m := by
        simp only [List.length_cons] at hlen
        omega
      rw [utf8DecodeLoop, hstep]
      show Option.map (fun r => b :: r) (utf8DecodeLoop m bs) = some (b :: bs)
      rw [ih m hm hbs]
      rfl

lemma utf8DecodeList_ascii (l : List Nat) (h : ∀ b ∈ l, b < 0x80) :
    utf8DecodeList l = some l :=
  utf8DecodeLoop_ascii l l.length le_rfl h

lemma decode_bytes_valid (gbkT : List Nat → List Nat) (data : List Nat)
    (hv : utf8Valid data = true) :
    decode_bytes_with_auto_detection gbkT data = .ok (utf8Dec data) := by
  by_cases hnil : data = []
  · subst hnil; rfl
  · obtain ⟨s, hs⟩ := Option.isSome_iff_exists.mp hv
    unfold decode_bytes_with_auto_detection
    rw [if_neg hnil, if_pos hv, hs]
    simp [utf8Dec, hs]

lemma ssh_convert_valid (gbkT : List Nat → List Nat) (data : List Nat)
    (hv : utf8Valid data = true) :
    ssh_convert_server_output gbkT data = .ok (utf8Dec data) := by
  by_cases hnil : data = []
  · subst hnil; rfl
  · obtain ⟨s, hs⟩ := Option.isSome_iff_exists.mp hv
    unfold ssh_convert_server_output
    rw [if_neg hnil, if_pos hv, hs]
    simp [utf8Dec, hs]

/-- C6: for the encoding auto-detection applied to received output chunks:
pure-ASCII input is returned identical to the input (by both byte-level
converters and by the Telnet string converter); well-formed UTF-8 input is
decoded to exactly its strict UTF-8 decoding (so no replacement characters
are introduced); and the conversion never raises for any input - the only
strict (raising) decode is guarded by the validity check, and the GBK
fallback runs in replace mode, which is total. -/
theorem encoding_auto_detection_sound (gbkT : List Nat → List Nat)
    (data : List Nat) :
    ((∀ b ∈ data, b < 0x80) →
      decode_bytes_with_auto_detection gbkT data = .ok data ∧
      ssh_convert_server_output gbkT data = .ok data ∧
      telnet_convert_server_output gbkT data = data) ∧
    (utf8Valid data = true →
      decode_bytes_with_auto_detection gbkT data = .ok (utf8Dec data) ∧
      ssh_convert_server_output gbkT data = .ok (utf8Dec data)) ∧
    (utf8Valid data = false → data ≠ [] →
      decode_bytes_with_auto_detection gbkT data = .ok (gbkT data) ∧
      ssh_convert_server_output gbkT data = .ok (gbkT data)) ∧
    exceptOk (decode_bytes_with_auto_detection gbkT data) = true ∧
    exceptOk (ssh_convert_server_output gbkT data) = true := by
  have hvalid_of_ascii : (∀ b ∈ data, b < 0x80) → utf8Valid data = true := by
    intro h
    simp [utf8Valid, utf8DecodeList_ascii data h]
  refine ⟨?_, fun hv => ⟨decode_bytes_valid gbkT data hv, ssh_convert_valid gbkT data hv⟩,
          ?_, ?_, ?_⟩
  case refine_2 =>
    intro hv hnil
    constructor
    · unfold decode_bytes_with_auto_detection
      rw [if_neg hnil, if_neg (by simp [hv])]
    · unfold ssh_convert_server_output
      rw [if_neg hnil, if_neg (by simp [hv])]
  · intro h
    have hv := hvalid_of_ascii h
    have hdec : utf8Dec data = data := by
      simp [utf8Dec, utf8DecodeList_ascii data h]
    refine ⟨(decode_bytes_valid gbkT data hv).trans (by rw [hdec]),
            (ssh_convert_valid gbkT data hv).trans (by rw [hdec]), ?_⟩
    by_cases hnil : data = []
    · subst hnil; rfl
    · have hmem : ¬ (0xFFFD : Nat) ∈ data := by
        intro hm
        have := h _ hm
        omega
      unfold telnet_convert_server_output
      rw [if_neg hnil, if_neg hmem, if_pos h]
  · by_cases hv : utf8Valid data = true
    · rw [decode_bytes_valid gbkT data hv]; rfl
    · by_cases hnil : data = []
      · subst hnil; rfl
      · unfold decode_bytes_with_auto_detection
        rw [if_neg hnil, if_neg hv]
        rfl
  · by_cases hv : utf8Valid data = true
    · rw [ssh_convert_valid gbkT data hv]; rfl
    · by_cases hnil : data = []
      · subst hnil; rfl
      · unfold ssh_convert_server_output
        rw [if_neg hnil, if_neg hv]
        rfl

/-- Witness for C6 at concrete inputs (with the identity as the abstract
GBK codec table): ASCII "Hi" passes through unchanged, the UTF-8 bytes of
U+4E2D decode exactly, and a GBK-only byte pair completes without an
exception through the fallback. -/
theorem encoding_auto_detection_sound_witness :
    decode_bytes_with_auto_detection (fun l => l) [72, 105] = .ok [72, 105] ∧
    decode_bytes_with_auto_detection (fun l => l) [228, 184, 173] = .ok [20013] ∧
    decode_bytes_with_auto_detection (fun l => l) [196, 227] = .ok [196, 227] ∧
    exceptOk (decode_bytes_with_auto_detection (fun l => l) [196, 227]) = true := by
  refine ⟨((encoding_auto_detection_sound (fun l => l) [72, 105]).1 (by decide)).1, ?_,
          ((encoding_auto_detection_sound (fun l => l) [196, 227]).2.2.1
            (by decide) (by decide)).1,
          (encoding_auto_detection_sound (fun l => l) [196, 227]).2.2.2.1⟩
  have h := ((encoding_auto_detection_sound (fun l => l) [228, 184, 173]).2.1
    (by decide)).1
  exact h.trans (by rfl)

/-! ## Telnet login-error and connection-error scanning (telnet.py)

`TelnetProtocol` compiles its pattern lists with `re.IGNORECASE |
re.MULTILINE` and uses `.search`.  None of `LOGIN_ERROR_PATTERNS` contain
anchors, so each is an alternation of plain literals and searching is
case-insensitive substring containment.  The first of
`CONNECTION_ERROR_PATTERNS` is `telnet:.*: (Connection refused|No route to
host|Connection timed out)` where `.` does not match a newline (DOTALL is
not set); the second is again a literal. -/

/-- Lower-case a string to a character list (re.IGNORECASE matching). -/
def lcList (s : String) : List Char := s.toList.map Char.toLower

/-- Case-sensitive substring containment on character lists. -/
def containsSub (pat hay : List Char) : Bool :=
  hay.tails.any (fun t => pat.isPrefixOf t)

/-- The literals of `TelnetProtocol.LOGIN_ERROR_PATTERNS`, alternations
expanded. -/
def LOGIN_ERROR_LITERALS : List String :=
  ["Username or password invalid", "Login incorrect",
   "has been locked", "Account locked",
   "Reenter times have reached the upper limit",
   "Authentication failed",
   "Invalid username", "Invalid password",
   "Login failed"]

/-- `re.search` of one of `LOGIN_ERROR_PATTERNS` against a string. -/
def loginErrorMatch (s : String) : Bool :=
  LOGIN_ERROR_LITERALS.any (fun p => containsSub (lcList p) (lcList s))

/-- Match `.*` (any run of non-newline characters) followed by one of the
stop strings, anywhere from the start of the list. -/
def dotStarThenStops (stops : List (List Char)) : List Char → Bool
  | [] => stops.any (fun p => p.isPrefixOf ([] : List Char))
  | c :: cs =>
    stops.any (fun p => p.isPrefixOf (c :: cs)) ||
      (decide (c ≠ Char.ofNat 10) && dotStarThenStops stops cs)

/-- The three alternatives of the first connection-error pattern, each
preceded by the literal colon-space of the pattern. -/
def connAltStops : List (List Char) :=
  [lcList ": Connection refused", lcList ": No route to host",
   lcList ": Connection timed out"]

/-- `re.search` of `telnet:.*: (Connection refused|No route to host|Connection timed out)`. -/
def telnetConnPatMatch (s : String) : Bool :=
  (lcList s).tails.any (fun t =>
    (lcList "telnet:").isPrefixOf t && dotStarThenStops connAltStops (t.drop 7))

/-- `re.search` of one of `CONNECTION_ERROR_PATTERNS`. -/
def connErrorMatch (s : String) : Bool :=
  telnetConnPatMatch s ||
    containsSub (lcList "connection refused by remote host") (lcList s)

/-- Writer handle of a Telnet session (`self.writer`). -/
structure TelnetWriter where
  isClosing : Bool
  deriving Repr, DecidableEq

/-- Background read task handle (`self._read_task`). -/
structure TelnetTask where
  done : Bool
  deriving Repr, DecidableEq

/-- Observable state of a `TelnetProtocol` instance. -/
structure TelnetState where
  connected : Bool
  closed : Bool
  authenticationFailed : Bool
  loginInProgress : Bool
  readerPresent : Bool
  writer : Option TelnetWriter
  readTask : Option TelnetTask
  relay : List String
  deriving Repr, DecidableEq

/-- `TelnetProtocol._check_data_for_auth_errors` (telnet.py 465-504): a
no-op while authentication already failed or login automation is running;
otherwise a stateless scan of the chunk for the login-failure and
connection-refused patterns, a match marking the session failed, not
connected, and closed. -/
def check_data_for_auth_errors (st : TelnetState) (data : String) : TelnetState :=
  if st.authenticationFailed || st.loginInProgress then st
  else if loginErrorMatch data || connErrorMatch data then
    { st with authenticationFailed := true, connected := false, closed := true }
  else st

/-- One iteration of `TelnetProtocol._read_output_async` (telnet.py
506-548) after a chunk has been decoded: scan it for auth errors; if
authentication failed, stop reading without queueing; otherwise hand the
chunk to `_queue_output` (which drops it when closed) and continue.  The
returned Bool is whether the loop keeps reading. -/
def read_output_iteration (st : TelnetState) (data : String) :
    TelnetState × Bool :=
  let st1 := check_data_for_auth_errors st data
  if st1.authenticationFailed then (st1, false)
  else if st1.closed then (st1, true)
  else ({ st1 with relay := st1.relay ++ [data] }, true)

/-- `TelnetProtocol._check_login_errors` (telnet.py 408-463) applied to the
output gathered after the password was sent: a login-error match marks the
session failed, not connected, and closed (the ValueError it raises is
swallowed by its own except handler; the flags carry the outcome). -/
def check_login_errors (st : TelnetState) (buffer : String) : TelnetState :=
  if loginErrorMatch buffer then
    { st with authenticationFailed := true, connected := false, closed := true }
  else st

/-- How `_handle_login` ends. -/
inductive LoginOutcome where
  | completed
  | fatalAuthError
  deriving Repr, DecidableEq

/-- The tail of `TelnetProtocol._handle_login` (telnet.py 264-273): after
the password is sent, `_check_login_errors` runs and a detected
authentication failure is re-raised to the caller as a fatal error. -/
def handle_login_post_password (st : TelnetState) (buffer : String) :
    TelnetState × LoginOutcome :=
  let st1 := check_login_errors st buffer
  if st1.authenticationFailed then (st1, .fatalAuthError)
  else (st1, .completed)

/-- C4: during Telnet login automation, output matching a login-failure
pattern flips the session to failed (not connected, closed) and is
propagated to the caller as a fatal authentication error; and outside the
automaton (login not in progress), every chunk seen by the background read
loop is scanned statelessly for the same login-failure patterns and the
connection-refused patterns - a match immediately marks the session
failed/closed, stops further reading, and the chunk is not relayed. -/
theorem telnet_login_error_detection (st : TelnetState) (buffer data : String) :
    (loginErrorMatch buffer = true →
      (handle_login_post_password st buffer).1.authenticationFailed = true ∧
      (handle_login_post_password st buffer).1.connected = false ∧
      (handle_login_post_password st buffer).1.closed = true ∧
      (handle_login_post_password st buffer).2 = .fatalAuthError) ∧
    (st.loginInProgress = false → st.authenticationFailed = false →
      (loginErrorMatch data || connErrorMatch data) = true →
      (read_output_iteration st data).1.authenticationFailed = true ∧
      (read_output_iteration st data).1.connected = false ∧
      (read_output_iteration st data).1.closed = true ∧
      (read_output_iteration st data).2 = false ∧
      (read_output_iteration st data).1.relay = st.relay) := by
  constructor
  · intro h
    simp [handle_login_post_password, check_login_errors, h]
  · intro h1 h2 h3
    have hc : check_data_for_auth_errors st data =
        { st with authenticationFailed := true, connected := false, closed := true } := by
      simp [check_data_for_auth_errors, h1, h2, h3]
    simp [read_output_iteration, hc]

/-- Witness for C4 at concrete chunks: "Login incorrect" trips the
automaton path, and "connection refused by remote host" trips the
stateless background scan on a quiescent session. -/
theorem telnet_login_error_detection_witness :
    (handle_login_post_password
        { connected := true, closed := false, authenticationFailed := false,
          loginInProgress := false, readerPresent := true, writer := none,
          readTask := none, relay := [] } "Login incorrect").2
      = .fatalAuthError ∧
    (read_output_iteration
        { connected := true, closed := false, authenticationFailed := false,
          loginInProgress := false, readerPresent := true, writer := none,
          readTask := none, relay := [] } "connection refused by remote host").2
      = false :=
  ⟨((telnet_login_error_detection _ "Login incorrect" "").1 (by decide)).2.2.2,
   ((telnet_login_error_detection _ "" "connection refused by remote host").2
      rfl rfl (by decide)).2.2.2.1⟩

/-! ## Local PTY auto-login automaton (local.py lines 26-42, 229-270)

`LocalProtocol._handle_auto_login` keys the automaton off a rolling
buffer trimmed to the last 500 characters; prompts are matched
case-insensitively against a fixed vocabulary, the username/password is
written with a trailing newline, and nothing in it ever closes or aborts
the session. -/

/-- `self.auto_login_state`. -/
inductive ALState where
  | waitingLogin
  | waitingPassword
  | doneState
  deriving Repr, DecidableEq

/-- Credential writes the automaton performs on the PTY master. -/
inductive ALSend where
  | sentUsername (data : List Char)
  | sentPassword (data : List Char)
  deriving Repr, DecidableEq

/-- Observable state of a `LocalProtocol` instance. -/
structure LocalState where
  connected : Bool
  closed : Bool
  masterFd : Bool
  slaveFd : Bool
  pid : Bool
  readerActive : Bool
  autoLoginUsername : String
  autoLoginPassword : String
  autoLoginState : ALState
  outputBuffer : List Char
  relay : List String
  deriving Repr, DecidableEq

/-- Keep only the last 500 characters (`self.output_buffer[-500:]`). -/
def localTrim (buf : List Char) : List Char :=
  if 500 < buf.length then buf.drop (buf.length - 500) else buf

/-- Case-insensitive check for `login:`, `username:` or `user:`. -/
def loginPromptMatch (buf : List Char) : Bool :=
  ["login:", "username:", "user:"].any
    (fun p => containsSub (lcList p) (buf.map Char.toLower))

/-- Case-insensitive check for `password:` or `passwd:`. -/
def passwordPromptMatch (buf : List Char) : Bool :=
  ["password:", "passwd:"].any
    (fun p => containsSub (lcList p) (buf.map Char.toLower))

/-- `LocalProtocol._handle_auto_login`: early-return when automation is
done; otherwise append the chunk to the rolling buffer, trim to the last
500 characters, and in `waiting_login` (resp. `waiting_password`) send the
username (resp. password) plus newline exactly when the buffer contains a
prompt, clearing the buffer and advancing the state; with no match only
the buffer changes. -/
def handle_auto_login (st : LocalState) (text : List Char) :
    LocalState × List ALSend :=
  if st.autoLoginState = .doneState then (st, [])
  else
    let buf := localTrim (st.outputBuffer ++ text)
    if st.autoLoginState = .waitingLogin then
      if loginPromptMatch buf then
        ({ st with autoLoginState := .waitingPassword, outputBuffer := [] },
         [.sentUsername (st.autoLoginUsername.toList ++ [Char.ofNat 10])])
      else ({ st with outputBuffer := buf }, [])
    else
      if passwordPromptMatch buf then
        ({ st with autoLoginState := .doneState, outputBuffer := [] },
         [.sentPassword (st.autoLoginPassword.toList ++ [Char.ofNat 10])])
      else ({ st with outputBuffer := buf }, [])

/-- Feed a sequence of output chunks through the automaton. -/
def runAutoLogin (st : LocalState) : List (List Char) → LocalState × List ALSend
  | [] => (st, [])
  | t :: ts =>
    let p1 := handle_auto_login st t
    let p2 := runAutoLogin p1.1 ts
    (p2.1, p1.2 ++ p2.2)

/-- Is a send a username injection. -/
def isUserSend : ALSend → Bool
  | .sentUsername _ => true
  | .sentPassword _ => false

/-- Is a send a password injection. -/
def isPassSend : ALSend → Bool
  | .sentUsername _ => false
  | .sentPassword _ => true

/-- Number of username injections in a send list. -/
def userSendCount (l : List ALSend) : Nat := (l.filter isUserSend).length

/-- Number of password injections in a send list. -/
def passSendCount (l : List ALSend) : Nat := (l.filter isPassSend).length

/-- How many username sends can still happen from an automaton state. -/
def userCapacity : ALState → Nat
  | .waitingLogin => 1
  | .waitingPassword => 0
  | .doneState => 0

/-- How many password sends can still happen from an automaton state. -/
def passCapacity : ALState → Nat
  | .waitingLogin => 1
  | .waitingPassword => 1
  | .doneState => 0

lemma localTrim_le (buf : List Char) : (localTrim buf).length ≤ 500 := by
  by_cases h : 500 < buf.length
  · simp only [localTrim, if_pos h, List.length_drop]
    omega
  · simp only [localTrim, if_neg h]
    omega

lemma handle_capacity_user (st : LocalState) (t : List Char) :
    userSendCount (handle_auto_login st t).2
      + userCapacity (handle_auto_login st t).1.autoLoginState
      ≤ userCapacity st.autoLoginState := by
  cases h : st.autoLoginState with
  | doneState => simp [handle_auto_login, h, userSendCount, userCapacity]
  | waitingLogin =>
    by_cases hm : loginPromptMatch (localTrim (st.outputBuffer ++ t)) = true <;>
      simp [handle_auto_login, h, hm, userSendCount, userCapacity, isUserSend]
  | waitingPassword =>
    by_cases hm : passwordPromptMatch (localTrim (st.outputBuffer ++ t)) = true <;>
      simp [handle_auto_login, h, hm, userSendCount, userCapacity, isUserSend]

lemma handle_capacity_pass (st : LocalState) (t : List Char) :
    passSendCount (handle_auto_login st t).2
      + passCapacity (handle_auto_login st t).1.autoLoginState
      ≤ passCapacity st.autoLoginState := by
  cases h : st.autoLoginState with
  | doneState => simp [handle_auto_login, h, passSendCount, passCapacity]
  | waitingLogin =>
    by_cases hm : loginPromptMatch (localTrim (st.outputBuffer ++ t)) = true <;>
      simp [handle_auto_login, h, hm, passSendCount, passCapacity, isPassSend]
  | waitingPassword =>
    by_cases hm : passwordPromptMatch (localTrim (st.outputBuffer ++ t)) = true <;>
      simp [handle_auto_login, h, hm, passSendCount, passCapacity, isPassSend]

lemma runAL_capacity_user :
    ∀ (ts : List (List Char)) (st : LocalState),
      userSendCount (runAutoLogin st ts).2
          + userCapacity (runAutoLogin st ts).1.autoLoginState
        ≤ userCapacity st.autoLoginState := by
  intro ts
  induction ts with
  | nil => intro st; simp [runAutoLogin, userSendCount]
  | cons t rest ih =>
    intro st
    have hstep := handle_capacity_user st t
    have hrest := ih (handle_auto_login st t).1
    simp only [runAutoLogin, userSendCount, List.filter_append, List.length_append] at *
    omega

lemma runAL_capacity_pass :
    ∀ (ts : List (List Char)) (st : LocalState),
      passSendCount (runAutoLogin st ts).2
          + passCapacity (runAutoLogin st ts).1.autoLoginState
        ≤ passCapacity st.autoLoginState := by
  intro ts
  induction ts with
  | nil => intro st; simp [runAutoLogin, passSendCount]
  | cons t rest ih =>
    intro st
    have hstep := handle_capacity_pass st t
    have hrest := ih (handle_auto_login st t).1
    simp only [runAutoLogin, passSendCount, List.filter_append, List.length_append] at *
    omega

/-- C8: the local auto-login automaton keeps its rolling buffer at no more
than 500 characters; in `waiting_login` a buffer containing a login prompt
(case-insensitively) sends the username once and advances to
`waiting_password`; in `waiting_password` a buffer containing a password
prompt sends the password once and advances to done; with no match it
sends nothing; the automaton never changes the connected or closed flags
(the session is never aborted, interactive input stays possible); and over
any sequence of output chunks at most one username and at most one
password are ever sent. -/
theorem local_auto_login_behaviour (st : LocalState) (text : List Char)
    (ts : List (List Char)) :
    (st.outputBuffer.length ≤ 500 →
      (handle_auto_login st text).1.outputBuffer.length ≤ 500) ∧
    (st.autoLoginState = .waitingLogin →
      loginPromptMatch (localTrim (st.outputBuffer ++ text)) = true →
      (handle_auto_login st text).2
          = [ALSend.sentUsername (st.autoLoginUsername.toList ++ [Char.ofNat 10])] ∧
        (handle_auto_login st text).1.autoLoginState = .waitingPassword) ∧
    (st.autoLoginState = .waitingPassword →
      passwordPromptMatch (localTrim (st.outputBuffer ++ text)) = true →
      (handle_auto_login st text).2
          = [ALSend.sentPassword (st.autoLoginPassword.toList ++ [Char.ofNat 10])] ∧
        (handle_auto_login st text).1.autoLoginState = .doneState) ∧
    (st.autoLoginState = .waitingLogin →
      loginPromptMatch (localTrim (st.outputBuffer ++ text)) = false →
      (handle_auto_login st text).2 = []) ∧
    (st.autoLoginState = .waitingPassword →
      passwordPromptMatch (localTrim (st.outputBuffer ++ text)) = false →
      (handle_auto_login st text).2 = []) ∧
    (st.autoLoginState = .doneState → (handle_auto_login st text).2 = []) ∧
    ((handle_auto_login st text).1.connected = st.connected ∧
      (handle_auto_login st text).1.closed = st.closed) ∧
    userSendCount (runAutoLogin st ts).2 ≤ 1 ∧
    passSendCount (runAutoLogin st ts).2 ≤ 1 := by
  refine ⟨?_, ?_, ?_, ?_, ?_, ?_, ?_, ?_, ?_⟩
  · intro hb
    cases h : st.autoLoginState with
    | doneState => simpa [handle_auto_login, h] using hb
    | waitingLogin =>
      by_cases hm : loginPromptMatch (localTrim (st.outputBuffer ++ text)) = true <;>
        simp [handle_auto_login, h, hm, localTrim_le]
    | waitingPassword =>
      by_cases hm : passwordPromptMatch (localTrim (st.outputBuffer ++ text)) = true <;>
        simp [handle_auto_login, h, hm, localTrim_le]
  · intro h hm
    simp [handle_auto_login, h, hm]
  · intro h hm
    simp [handle_auto_login, h, hm]
  · intro h hm
    simp [handle_auto_login, h, hm]
  · intro h hm
    simp [handle_auto_login, h, hm]
  · intro h
    simp [handle_auto_login, h]
  · cases h : st.autoLoginState with
    | doneState => simp [handle_auto_login, h]
    | waitingLogin =>
      by_cases hm : loginPromptMatch (localTrim (st.outputBuffer ++ text)) = true <;>
        simp [handle_auto_login, h, hm]
    | waitingPassword =>
      by_cases hm : passwordPromptMatch (localTrim (st.outputBuffer ++ text)) = true <;>
        simp [handle_auto_login, h, hm]
  · calc userSendCount (runAutoLogin st ts).2
        ≤ userSendCount (runAutoLogin st ts).2
            + userCapacity (runAutoLogin st ts).1.autoLoginState := Nat.le_add_right _ _
      _ ≤ userCapacity st.autoLoginState := runAL_capacity_user ts st
      _ ≤ 1 := by cases st.autoLoginState <;> simp [userCapacity]
  · calc passSendCount (runAutoLogin st ts).2
        ≤ passSendCount (runAutoLogin st ts).2
            + passCapacity (runAutoLogin st ts).1.autoLoginState := Nat.le_add_right _ _
      _ ≤ passCapacity st.autoLoginState := runAL_capacity_pass ts st
      _ ≤ 1 := by cases st.autoLoginState <;> simp [passCapacity]

/-- Witness for C8 at a concrete run: from `waiting_login` with an empty
buffer, the fragment stream of an Ubuntu login banner triggers exactly one
username send followed (after the password prompt) by exactly one password
send, and the session flags are untouched. -/
theorem local_auto_login_behaviour_witness :
    (handle_auto_login
        { connected := true, closed := false, masterFd := true, slaveFd := false,
          pid := true, readerActive := true, autoLoginUsername := "alice",
          autoLoginPassword := "pw", autoLoginState := .waitingLogin,
          outputBuffer := [], relay := [] }
        ("Ubuntu 22.04\r\nlogin: ".toList)).2
      = [ALSend.sentUsername ("alice".toList ++ [Char.ofNat 10])] ∧
    (handle_auto_login
        { connected := true, closed := false, masterFd := true, slaveFd := false,
          pid := true, readerActive := true, autoLoginUsername := "alice",
          autoLoginPassword := "pw", autoLoginState := .waitingLogin,
          outputBuffer := [], relay := [] }
        ("Ubuntu 22.04\r\nlogin: ".toList)).1.closed = false := by
  constructor
  · exact ((local_auto_login_behaviour _ ("Ubuntu 22.04\r\nlogin: ".toList) []).2.1
      rfl (by decide)).1
  · exact ((local_auto_login_behaviour _ ("Ubuntu 22.04\r\nlogin: ".toList) []).2.2.2.2.2.2.1).2

/-! ## Adapter lifecycle: close, send and resize (ssh.py, telnet.py,
serial.py, local.py)

Each `close()` starts with an `if self.closed: return` guard, then sets
the flags and performs its guarded teardown steps, each wrapped in its own
exception handler, so `close()` never raises.  The send/resize entry
points all guard on the `connected` flag (not on `closed`) plus the
transport handle. -/

/-- A paramiko channel as the SSH adapter observes it. -/
structure SSHChannel where
  chClosed : Bool
  eofReceived : Bool
  exitStatusReady : Bool
  deriving Repr, DecidableEq

/-- Observable state of an `SSHProtocol` instance. -/
structure SSHState where
  connected : Bool
  closed : Bool
  stopReading : Bool
  readThreadAlive : Bool
  channel : Option SSHChannel
  clientPresent : Bool
  relay : List String
  deriving Repr, DecidableEq

/-- Teardown side effects of `SSHProtocol.close`. -/
inductive SSHEffect where
  | joinedReadThread
  | closedChannel
  | closedClient
  deriving Repr, DecidableEq

/-- `SSHProtocol.close` (ssh.py 588-643): early return when already
closed; otherwise set closed and stop-reading, join the read thread if
alive, close channel and client if present, and clear the connected
flag.  Every step is guarded, so the call never raises. -/
def sshClose (s : SSHState) : SSHState × List SSHEffect :=
  if s.closed then (s, [])
  else
    ({ s with closed := true, stopReading := true, connected := false },
     (if s.readThreadAlive then [SSHEffect.joinedReadThread] else [])
       ++ (if s.channel.isSome then [SSHEffect.closedChannel] else [])
       ++ (if s.clientPresent then [SSHEffect.closedClient] else []))

/-- Teardown side effects of `TelnetProtocol.close`. -/
inductive TelnetEffect where
  | sentLogoutCommands
  | cancelledReadTask
  | closedWriter
  deriving Repr, DecidableEq

/-- `TelnetProtocol.close` (telnet.py 676-754): early return when already
closed; otherwise set closed/not-connected, send the logout command
sequence when the writer is open, cancel the pending read task, close the
writer, and null out writer, reader and task handles. -/
def telnetClose (s : TelnetState) : TelnetState × List TelnetEffect :=
  if s.closed then (s, [])
  else
    ({ s with
        closed := true
        connected := false
        writer := none
        readerPresent := false
        readTask := none },
     (match s.writer with
      | some w => if ¬ w.isClosing then [TelnetEffect.sentLogoutCommands] else []
      | none => [])
       ++ (match s.readTask with
           | some t => if ¬ t.done then [TelnetEffect.cancelledReadTask] else []
           | none => [])
       ++ (match s.writer with
           | some _ => [TelnetEffect.closedWriter]
           | none => []))

/-- Background task handle of the serial adapter (`self._read_task`). -/
structure SerialTask where
  done : Bool
  deriving Repr, DecidableEq

/-- Observable state of a `SerialProtocol` instance. -/
structure SerialState where
  connected : Bool
  closed : Bool
  writerPresent : Bool
  readTask : Option SerialTask
  relay : List String
  deriving Repr, DecidableEq

/-- Teardown side effects of `SerialProtocol.close`. -/
inductive SerialEffect where
  | cancelledReadTask
  | closedWriter
  deriving Repr, DecidableEq

/-- `SerialProtocol.close` (serial.py 134-158): early return when already
closed; otherwise set the flags, cancel the pending read task, and close
the writer. -/
def serialClose (s : SerialState) : SerialState × List SerialEffect :=
  if s.closed then (s, [])
  else
    ({ s with closed := true, connected := false },
     (match s.readTask with
      | some t => if ¬ t.done then [SerialEffect.cancelledReadTask] else []
      | none => [])
       ++ (if s.writerPresent then [SerialEffect.closedWriter] else []))

/-- Teardown side effects of `LocalProtocol.close`. -/
inductive LocalEffect where
  | cancelledReaderTask
  | closedMasterFd
  | closedSlaveFd
  | killedChild
  deriving Repr, DecidableEq

/-- `LocalProtocol.close` (local.py 272-322): early return when already
closed; otherwise set the flags, cancel the reader task if running, close
master and slave descriptors (nulling them), and SIGTERM plus non-blocking
reap the child (nulling the pid); each step independently guarded. -/
def localClose (s : LocalState) : LocalState × List LocalEffect :=
  if s.closed then (s, [])
  else
    ({ s with
        closed := true
        connected := false
        masterFd := false
        slaveFd := false
        pid := false },
     (if s.readerActive then [LocalEffect.cancelledReaderTask] else [])
       ++ (if s.masterFd then [LocalEffect.closedMasterFd] else [])
       ++ (if s.slaveFd then [LocalEffect.closedSlaveFd] else [])
       ++ (if s.pid then [LocalEffect.killedChild] else []))

/-- Call a close function n times from a state, accumulating effects. -/
def closeN {σ ε : Type} (f : σ → σ × List ε) : Nat → σ → σ × List ε
  | 0, s => (s, [])
  | n + 1, s =>
    let p := f s
    let q := closeN f n p.1
    (q.1, p.2 ++ q.2)

lemma closeN_inert {σ ε : Type} (f : σ → σ × List ε) (closedF : σ → Bool)
    (h2 : ∀ s, closedF s = true → f s = (s, [])) :
    ∀ (k : Nat) (s : σ), closedF s = true → closeN f k s = (s, []) := by
  intro k
  induction k with
  | zero => intro s _; rfl
  | succ m ih =>
    intro s hs
    simp only [closeN, h2 s hs]
    rw [ih s hs]
    simp

lemma closeN_eq_one {σ ε : Type} (f : σ → σ × List ε) (closedF : σ → Bool)
    (h1 : ∀ s, closedF (f s).1 = true)
    (h2 : ∀ s, closedF s = true → f s = (s, []))
    (n : Nat) (hn : 1 ≤ n) (s : σ) :
    closeN f n s = closeN f 1 s := by
  match n, hn with
  | 1, _ => rfl
  | m + 2, _ =>
    have hinert := closeN_inert f closedF h2 (m + 1) (f s).1 (h1 s)
    show ((closeN f (m + 1) (f s).1).1, (f s).2 ++ (closeN f (m + 1) (f s).1).2)
        = ((closeN f 0 (f s).1).1, (f s).2 ++ (closeN f 0 (f s).1).2)
    rw [hinert]
    rfl

lemma sshClose_closed (s : SSHState) : (sshClose s).1.closed = true := by
  by_cases h : s.closed <;> simp [sshClose, h]

lemma sshClose_inert (s : SSHState) (h : s.closed = true) : sshClose s = (s, []) := by
  simp [sshClose, h]

lemma telnetClose_closed (s : TelnetState) : (telnetClose s).1.closed = true := by
  by_cases h : s.closed <;> simp [telnetClose, h]

lemma telnetClose_inert (s : TelnetState) (h : s.closed = true) :
    telnetClose s = (s, []) := by
  simp [telnetClose, h]

lemma serialClose_closed (s : SerialState) : (serialClose s).1.closed = true := by
  by_cases h : s.closed <;> simp [serialClose, h]

lemma serialClose_inert (s : SerialState) (h : s.closed = true) :
    serialClose s = (s, []) := by
  simp [serialClose, h]

lemma localClose_closed (s : LocalState) : (localClose s).1.closed = true := by
  by_cases h : s.closed <;> simp [localClose, h]

lemma localClose_inert (s : LocalState) (h : s.closed = true) :
    localClose s = (s, []) := by
  simp [localClose, h]

/-- C2: for every adapter (SSH, Telnet, serial, local) and every number of
calls n of at least 1, calling `close()` n times in sequence reaches the
same final state with the same accumulated teardown effects as calling it
once - so only the first call performs teardown side effects, a second
call performs none at all, and every call returns normally (the close
functions are total). -/
theorem close_idempotent_all_adapters
    (s1 : SSHState) (s2 : TelnetState) (s3 : SerialState) (s4 : LocalState)
    (n : Nat) (hn : 1 ≤ n) :
    closeN sshClose n s1 = closeN sshClose 1 s1 ∧
    sshClose (sshClose s1).1 = ((sshClose s1).1, []) ∧
    closeN telnetClose n s2 = closeN telnetClose 1 s2 ∧
    telnetClose (telnetClose s2).1 = ((telnetClose s2).1, []) ∧
    closeN serialClose n s3 = closeN serialClose 1 s3 ∧
    serialClose (serialClose s3).1 = ((serialClose s3).1, []) ∧
    closeN localClose n s4 = closeN localClose 1 s4 ∧
    localClose (localClose s4).1 = ((localClose s4).1, []) :=
  ⟨closeN_eq_one sshClose (fun s => s.closed) sshClose_closed sshClose_inert n hn s1,
   sshClose_inert _ (sshClose_closed s1),
   closeN_eq_one telnetClose (fun s => s.closed) telnetClose_closed telnetClose_inert n hn s2,
   telnetClose_inert _ (telnetClose_closed s2),
   closeN_eq_one serialClose (fun s => s.closed) serialClose_closed serialClose_inert n hn s3,
   serialClose_inert _ (serialClose_closed s3),
   closeN_eq_one localClose (fun s => s.closed) localClose_closed localClose_inert n hn s4,
   localClose_inert _ (localClose_closed s4)⟩

/-- Witness for C2 at concrete connected sessions closed three times. -/
theorem close_idempotent_all_adapters_witness :
    closeN sshClose 3
        { connected := true, closed := false, stopReading := false,
          readThreadAlive := true,
          channel := some { chClosed := false, eofReceived := false,
                            exitStatusReady := false },
          clientPresent := true, relay := [] }
      = closeN sshClose 1
        { connected := true, closed := false, stopReading := false,
          readThreadAlive := true,
          channel := some { chClosed := false, eofReceived := false,
                            exitStatusReady := false },
          clientPresent := true, relay := [] } ∧
    closeN serialClose 3
        { connected := true, closed := false, writerPresent := true,
          readTask := some { done := false }, relay := [] }
      = closeN serialClose 1
        { connected := true, closed := false, writerPresent := true,
          readTask := some { done := false }, relay := [] } :=
  ⟨(close_idempotent_all_adapters _
      { connected := true, closed := false, authenticationFailed := false,
        loginInProgress := false, readerPresent := true, writer := none,
        readTask := none, relay := [] }
      { connected := true, closed := false, writerPresent := true,
        readTask := some { done := false }, relay := [] }
      { connected := true, closed := false, masterFd := true, slaveFd := false,
        pid := true, readerActive := true, autoLoginUsername := "",
        autoLoginPassword := "", autoLoginState := .doneState,
        outputBuffer := [], relay := [] }
      3 (by decide)).1,
   (close_idempotent_all_adapters
      { connected := true, closed := false, stopReading := false,
        readThreadAlive := true,
        channel := some { chClosed := false, eofReceived := false,
                          exitStatusReady := false },
        clientPresent := true, relay := [] }
      { connected := true, closed := false, authenticationFailed := false,
        loginInProgress := false, readerPresent := true, writer := none,
        readTask := none, relay := [] }
      _
      { connected := true, closed := false, masterFd := true, slaveFd := false,
        pid := true, readerActive := true, autoLoginUsername := "",
        autoLoginPassword := "", autoLoginState := .doneState,
        outputBuffer := [], relay := [] }
      3 (by decide)).2.2.2.2.1⟩

/-- Outcome of a send/resize entry point as the caller observes it. -/
inductive OpOutcome where
  | notConnectedError
  | noop
  | sendFailedError
  | sent (writes : List (List Nat))
  | resized
  deriving Repr, DecidableEq

/-- The channel writes of a send-event list. -/
def writesOf (evs : List SSHWriteEvent) : List (List Nat) :=
  evs.filterMap fun e =>
    match e with
    | .wrote c => some c
    | .yielded => none

/-- `SSHProtocol.send_data` (ssh.py 492-532): raises a not-connected
ValueError when the connected flag is clear or the channel handle is
gone; otherwise writes to the channel (single or chunked per payload
size), which raises a generic send-failure error when the channel is
closed.  No path touches the output relay. -/
def sshSendData (s : SSHState) (payload : List Nat) : OpOutcome × SSHState :=
  if s.connected = false ∨ s.channel = none then (.notConnectedError, s)
  else
    match s.channel with
    | some ch =>
      if ch.chClosed then (.sendFailedError, s)
      else (.sent (writesOf (sshSendEvents payload)), s)
    | none => (.notConnectedError, s)

/-- `SSHProtocol.send_raw_data` (ssh.py 534-563): same guard, always the
chunked path. -/
def sshSendRawData (s : SSHState) (payload : List Nat) : OpOutcome × SSHState :=
  if s.connected = false ∨ s.channel = none then (.notConnectedError, s)
  else
    match s.channel with
    | some ch =>
      if ch.chClosed then (.sendFailedError, s)
      else (.sent (writesOf (send_data_chunked payload)), s)
    | none => (.notConnectedError, s)

/-- `SSHProtocol.resize_terminal` (ssh.py 565-586): returns silently when
not connected or the channel is gone, else resizes the pty. -/
def sshResizeTerminal (s : SSHState) : OpOutcome × SSHState :=
  if s.connected = false ∨ s.channel = none then (.noop, s)
  else (.resized, s)

/-- `TelnetProtocol.send_data` (telnet.py 581-621): raises a not-connected
ValueError when the connected flag is clear or the writer is gone, else
writes the payload. -/
def telnetSendData (s : TelnetState) (payload : List Nat) :
    OpOutcome × TelnetState :=
  if s.connected = false ∨ s.writer = none then (.notConnectedError, s)
  else (.sent [payload], s)

/-- `TelnetProtocol.send_raw_data` (telnet.py 623-638): same shape. -/
def telnetSendRawData (s : TelnetState) (payload : List Nat) :
    OpOutcome × TelnetState :=
  if s.connected = false ∨ s.writer = none then (.notConnectedError, s)
  else (.sent [payload], s)

/-- `TelnetProtocol.resize_terminal` (telnet.py 640-673): returns silently
when not connected or the writer is gone; otherwise still only logs - the
NAWS negotiation is deliberately disabled - so resize is always a no-op. -/
def telnetResizeTerminal (s : TelnetState) : OpOutcome × TelnetState :=
  if s.connected = false ∨ s.writer = none then (.noop, s)
  else (.noop, s)

/-- `SerialProtocol.send_data` (serial.py 101-114): raises a not-connected
ValueError when the connected flag is clear or the writer is gone, else
writes the payload. -/
def serialSendData (s : SerialState) (payload : List Nat) :
    OpOutcome × SerialState :=
  if s.connected = false ∨ s.writerPresent = false then (.notConnectedError, s)
  else (.sent [payload], s)

/-- `SerialProtocol.send_raw_data` (serial.py 116-128): same shape. -/
def serialSendRawData (s : SerialState) (payload : List Nat) :
    OpOutcome × SerialState :=
  if s.connected = false ∨ s.writerPresent = false then (.notConnectedError, s)
  else (.sent [payload], s)

/-- `SerialProtocol.resize_terminal` (serial.py 130-132): a pure no-op. -/
def serialResizeTerminal (s : SerialState) : OpOutcome × SerialState :=
  (.noop, s)

/-- `LocalProtocol.send_data` (local.py 175-190): logs and returns (a
no-op) when the connected flag is clear or the master descriptor is gone,
else writes to the PTY. -/
def localSendData (s : LocalState) (payload : List Nat) :
    OpOutcome × LocalState :=
  if s.connected = false ∨ s.masterFd = false then (.noop, s)
  else (.sent [payload], s)

/-- `LocalProtocol.send_raw_data` (local.py 192-203): same guard. -/
def localSendRawData (s : LocalState) (payload : List Nat) :
    OpOutcome × LocalState :=
  if s.connected = false ∨ s.masterFd = false then (.noop, s)
  else (.sent [payload], s)

/-- `LocalProtocol.resize_terminal` (local.py 205-216): guarded only on
the master descriptor being present. -/
def localResizeTerminal (s : LocalState) : OpOutcome × LocalState :=
  if s.masterFd = false then (.noop, s)
  else (.resized, s)

/-- The exit of `SSHProtocol._read_output_thread` (ssh.py 409-464) when
the channel reports closed/EOF/exit-status: the loop breaks and the
thread's epilogue sets `self.closed = True` - and only that flag; the
connected flag is left as it was. -/
def sshReadThreadExitOnEnd (s : SSHState) : SSHState :=
  match s.channel with
  | some ch =>
    if ch.chClosed || ch.eofReceived || ch.exitStatusReady then
      { s with closed := true }
    else s
  | none => s

/-- A live SSH session whose channel has just delivered EOF. -/
def sshSessionAtEof : SSHState :=
  { connected := true, closed := false, stopReading := false,
    readThreadAlive := true,
    channel := some { chClosed := false, eofReceived := true,
                      exitStatusReady := false },
    clientPresent := true, relay := [] }

/-- C3 counterexample: the adapters' fast-fail guards test the `connected`
flag, not the `closed` flag.  An SSH session whose background read thread
exits on channel EOF is marked `closed = True` with `connected` left
`True`, and a subsequent `send_data` on it is neither a no-op nor a
not-connected failure: it passes the guard and writes the payload to the
still-open channel. -/
theorem send_after_closed_claim_false :
    (sshReadThreadExitOnEnd sshSessionAtEof).closed = true ∧
    (sshReadThreadExitOnEnd sshSessionAtEof).connected = true ∧
    (sshSendData (sshReadThreadExitOnEnd sshSessionAtEof) [65]).1
      = .sent [[65]] ∧
    (sshSendData (sshReadThreadExitOnEnd sshSessionAtEof) [65]).1 ≠ .noop ∧
    (sshSendData (sshReadThreadExitOnEnd sshSessionAtEof) [65]).1
      ≠ .notConnectedError := by
  refine ⟨rfl, rfl, ?_, ?_, ?_⟩ <;> decide

lemma sshSendData_st (s : SSHState) (p : List Nat) : (sshSendData s p).2 = s := by
  unfold sshSendData
  split
  · rfl
  · split
    · split <;> rfl
    · rfl

lemma sshSendRawData_st (s : SSHState) (p : List Nat) :
    (sshSendRawData s p).2 = s := by
  unfold sshSendRawData
  split
  · rfl
  · split
    · split <;> rfl
    · rfl

lemma sshResizeTerminal_st (s : SSHState) : (sshResizeTerminal s).2 = s := by
  unfold sshResizeTerminal
  split <;> rfl

lemma telnetSendData_st (s : TelnetState) (p : List Nat) :
    (telnetSendData s p).2 = s := by
  unfold telnetSendData
  split <;> rfl

lemma telnetSendRawData_st (s : TelnetState) (p : List Nat) :
    (telnetSendRawData s p).2 = s := by
  unfold telnetSendRawData
  split <;> rfl

lemma telnetResizeTerminal_st (s : TelnetState) :
    (telnetResizeTerminal s).2 = s := by
  unfold telnetResizeTerminal
  split <;> rfl

lemma serialSendData_st (s : SerialState) (p : List Nat) :
    (serialSendData s p).2 = s := by
  unfold serialSendData
  split <;> rfl

lemma serialSendRawData_st (s : SerialState) (p : List Nat) :
    (serialSendRawData s p).2 = s := by
  unfold serialSendRawData
  split <;> rfl

lemma localSendData_st (s : LocalState) (p : List Nat) :
    (localSendData s p).2 = s := by
  unfold localSendData
  split <;> rfl

lemma localSendRawData_st (s : LocalState) (p : List Nat) :
    (localSendRawData s p).2 = s := by
  unfold localSendRawData
  split <;> rfl

lemma localResizeTerminal_st (s : LocalState) :
    (localResizeTerminal s).2 = s := by
  unfold localResizeTerminal
  split <;> rfl

/-- C3 amended: whenever the `connected` flag is clear - which `close()`
guarantees for every adapter, along with clearing the transport handles -
every subsequent `send_data`, `send_raw_data` and `resize_terminal` is a
no-op or fails fast with a not-connected error; the same holds in the
state actually produced by `close()`; and no send or resize call on any
adapter, in any state, ever injects a chunk into the output relay.  (The
guards test `connected` rather than `closed`, so an SSH session
self-marked closed by its read thread with `connected` still set will
still attempt the write - see the counterexample.) -/
theorem send_after_close_fail_fast
    (s1 : SSHState) (s2 : TelnetState) (s3 : SerialState) (s4 : LocalState)
    (p : List Nat) :
    (s1.connected = false →
      (sshSendData s1 p).1 = .notConnectedError ∧
      (sshSendRawData s1 p).1 = .notConnectedError ∧
      (sshResizeTerminal s1).1 = .noop) ∧
    (s2.connected = false →
      (telnetSendData s2 p).1 = .notConnectedError ∧
      (telnetSendRawData s2 p).1 = .notConnectedError ∧
      (telnetResizeTerminal s2).1 = .noop) ∧
    (s3.connected = false →
      (serialSendData s3 p).1 = .notConnectedError ∧
      (serialSendRawData s3 p).1 = .notConnectedError ∧
      (serialResizeTerminal s3).1 = .noop) ∧
    (s4.connected = false →
      (localSendData s4 p).1 = .noop ∧
      (localSendRawData s4 p).1 = .noop) ∧
    (s1.closed = false →
      (sshSendData (sshClose s1).1 p).1 = .notConnectedError) ∧
    (s2.closed = false →
      (telnetSendData (telnetClose s2).1 p).1 = .notConnectedError) ∧
    (s3.closed = false →
      (serialSendData (serialClose s3).1 p).1 = .notConnectedError) ∧
    (s4.closed = false →
      (localSendData (localClose s4).1 p).1 = .noop ∧
      (localResizeTerminal (localClose s4).1).1 = .noop) ∧
    ((sshSendData s1 p).2.relay = s1.relay ∧
      (sshSendRawData s1 p).2.relay = s1.relay ∧
      (sshResizeTerminal s1).2.relay = s1.relay ∧
      (telnetSendData s2 p).2.relay = s2.relay ∧
      (telnetSendRawData s2 p).2.relay = s2.relay ∧
      (telnetResizeTerminal s2).2.relay = s2.relay ∧
      (serialSendData s3 p).2.relay = s3.relay ∧
      (serialSendRawData s3 p).2.relay = s3.relay ∧
      (serialResizeTerminal s3).2.relay = s3.relay ∧
      (localSendData s4 p).2.relay = s4.relay ∧
      (localSendRawData s4 p).2.relay = s4.relay ∧
      (localResizeTerminal s4).2.relay = s4.relay) := by
  refine ⟨?_, ?_, ?_, ?_, ?_, ?_, ?_, ?_, ?_⟩
  · intro h
    refine ⟨?_, ?_, ?_⟩ <;> simp [sshSendData, sshSendRawData, sshResizeTerminal, h]
  · intro h
    refine ⟨?_, ?_, ?_⟩ <;>
      simp [telnetSendData, telnetSendRawData, telnetResizeTerminal, h]
  · intro h
    refine ⟨?_, ?_, ?_⟩ <;>
      simp [serialSendData, serialSendRawData, serialResizeTerminal, h]
  · intro h
    exact ⟨by simp [localSendData, h], by simp [localSendRawData, h]⟩
  · intro h
    simp [sshClose, h, sshSendData]
  · intro h
    simp [telnetClose, h, telnetSendData]
  · intro h
    simp [serialClose, h, serialSendData]
  · intro h
    constructor
    · simp [localClose, h, localSendData]
    · simp [localClose, h, localResizeTerminal]
  · exact ⟨by rw [sshSendData_st], by rw [sshSendRawData_st],
           by rw [sshResizeTerminal_st], by rw [telnetSendData_st],
           by rw [telnetSendRawData_st], by rw [telnetResizeTerminal_st],
           by rw [serialSendData_st], by rw [serialSendRawData_st],
           rfl,
           by rw [localSendData_st], by rw [localSendRawData_st],
           by rw [localResizeTerminal_st]⟩

/-- Witness for C3 amended at concrete disconnected sessions: an SSH send
fails fast with the not-connected error, a Telnet send fails fast, and a
local send is a no-op. -/
theorem send_after_close_fail_fast_witness :
    (sshSendData
        { connected := false, closed := true, stopReading := true,
          readThreadAlive := false, channel := none, clientPresent := false,
          relay := [] } [1]).1 = .notConnectedError ∧
    (telnetSendData
        { connected := false, closed := true, authenticationFailed := false,
          loginInProgress := false, readerPresent := false, writer := none,
          readTask := none, relay := [] } [1]).1 = .notConnectedError ∧
    (localSendData
        { connected := false, closed := true, masterFd := false,
          slaveFd := false, pid := false, readerActive := false,
          autoLoginUsername := "", autoLoginPassword := "",
          autoLoginState := .doneState, outputBuffer := [],
          relay := [] } [1]).1 = .noop :=
  ⟨((send_after_close_fail_fast
      { connected := false, closed := true, stopReading := true,
        readThreadAlive := false, channel := none, clientPresent := false,
        relay := [] }
      { connected := false, closed := true, authenticationFailed := false,
        loginInProgress := false, readerPresent := false, writer := none,
        readTask := none, relay := [] }
      { connected := false, closed := true, writerPresent := false,
        readTask := none, relay := [] }
      { connected := false, closed := true, masterFd := false,
        slaveFd := false, pid := false, readerActive := false,
        autoLoginUsername := "", autoLoginPassword := "",
        autoLoginState := .doneState, outputBuffer := [],
        relay := [] } [1]).1 rfl).1,
   ((send_after_close_fail_fast
      { connected := false, closed := true, stopReading := true,
        readThreadAlive := false, channel := none, clientPresent := false,
        relay := [] }
      { connected := false, closed := true, authenticationFailed := false,
        loginInProgress := false, readerPresent := false, writer := none,
        readTask := none, relay := [] }
      { connected := false, closed := true, writerPresent := false,
        readTask := none, relay := [] }
      { connected := false, closed := true, masterFd := false,
        slaveFd := false, pid := false, readerActive := false,
        autoLoginUsername := "", autoLoginPassword := "",
        autoLoginState := .doneState, outputBuffer := [],
        relay := [] } [1]).2.1 rfl).1,
   ((send_after_close_fail_fast
      { connected := false, closed := true, stopReading := true,
        readThreadAlive := false, channel := none, clientPresent := false,
        relay := [] }
      { connected := false, closed := true, authenticationFailed := false,
        loginInProgress := false, readerPresent := false, writer := none,
        readTask := none, relay := [] }
      { connected := false, closed := true, writerPresent := false,
        readTask := none, relay := [] }
      { connected := false, closed := true, masterFd := false,
        slaveFd := false, pid := false, readerActive := false,
        autoLoginUsername := "", autoLoginPassword := "",
        autoLoginState := .doneState, outputBuffer := [],
        relay := [] } [1]).2.2.2.1 rfl).1⟩

end Webxterm
